import Mathlib

/-!
Shallow embedding of the seo-mcp server (src/src/seo_mcp/server.py).

The server exposes four MCP tools (get_backlinks_list, keyword_generator,
get_traffic, keyword_difficulty). Each tool builds a target URL, obtains a
CapSolver captcha token for it via get_capsolver_token / get_token_for_url,
and then calls an upstream collaborator function (imported from the
seo_mcp.backlinks / seo_mcp.keywords / seo_mcp.traffic modules, which are
not part of this repository snapshot and are therefore modelled as function
parameters, i.e. test doubles).

The embedding is pure. Effects are made explicit:
  - the CAPSOLVER_API_KEY environment variable is a parameter
    (apiKey : Option String, with Python string truthiness);
  - each HTTP interaction with the solver is modelled by a NetResult value
    supplied by a Solver double: the createTask response plus a sequence of
    getTaskResult responses; NetResult.exn stands for a raised
    requests.RequestException (connection error, raise_for_status, ...);
  - every observable action (time.sleep, an HTTP POST to the solver, a call
    to an upstream collaborator) is recorded in an Event trace returned
    alongside the result;
  - a raised Python Exception is an Except.error carrying the message;
  - the unbounded `while True` poll loop is modelled by structural recursion
    over the finite list of supplied poll responses; if the loop would keep
    polling past the end of the list the result is `none` (divergence in the
    model), otherwise `some r` where `r` is the Python return value.
-/

/-- Truthiness of a Python `Optional[str]` value: `None` and the empty
string are falsy, every other string is truthy (`if not api_key`,
`if not task_id`, `if not token`, `if not signature` in the source). -/
def strTruthy : Option String → Bool
  | none => false
  | some s => s != ""

/-- UTF-8 encoding of one character as a list of byte values (what Python
`str.encode("utf-8")` produces per character; `urllib.parse.quote` encodes
the string to UTF-8 bytes before percent-encoding). -/
def utf8Bytes (c : Char) : List Nat :=
  let n := c.toNat
  if n < 128 then [n]
  else if n < 2048 then [192 + n / 64, 128 + n % 64]
  else if n < 65536 then [224 + n / 4096, 128 + (n / 64) % 64, 128 + n % 64]
  else [240 + n / 262144, 128 + (n / 4096) % 64, 128 + (n / 64) % 64, 128 + n % 64]

/-- Uppercase hexadecimal digit for a value below 16 (Python
`quote` emits `%XX` with uppercase hex). -/
def hexDigit (n : Nat) : Char :=
  if n < 10 then Char.ofNat (48 + n) else Char.ofNat (55 + n)

/-- Bytes that `urllib.parse.quote` leaves unencoded with the default
`safe="/"`: ASCII letters, digits, `_`, `.`, `-`, `~`, and `/`. -/
def isQuoteSafe (b : Nat) : Bool :=
  (65 ≤ b && b ≤ 90) || (97 ≤ b && b ≤ 122) || (48 ≤ b && b ≤ 57) ||
  b == 95 || b == 46 || b == 45 || b == 126 || b == 47

/-- Percent-encoding of one byte: safe bytes pass through as the literal
character, every other byte becomes `%XX` with uppercase hex. -/
def quoteByte (b : Nat) : List Char :=
  if isQuoteSafe b then [Char.ofNat b]
  else ['%', hexDigit (b / 16), hexDigit (b % 16)]

/-- Model of Python `urllib.parse.quote(s)` with the default `safe="/"`:
encode to UTF-8, then percent-encode every byte outside the safe set. -/
def quote (s : String) : String :=
  ⟨(s.data.flatMap utf8Bytes).flatMap quoteByte⟩

/-- Observable actions of one tool invocation, in order. -/
inductive Event where
  /-- A `time.sleep(seconds)` call. -/
  | sleep (seconds : Nat)
  /-- An HTTP POST to the solver createTask endpoint; the payload carries
  the given websiteURL (plus the fixed websiteKey and the client key). -/
  | createTask (websiteURL : String)
  /-- An HTTP POST to the solver getTaskResult endpoint for this taskId. -/
  | getTaskResult (taskId : String)
  /-- A call to an upstream collaborator function, with the token that was
  passed to it. -/
  | upstream (fn : String) (token : String)
  deriving Repr, DecidableEq

/-- Whether an event is a call to an upstream collaborator. -/
def Event.isUpstream : Event → Bool
  | .upstream _ _ => true
  | _ => false

/-- Outcome of one HTTP request: a parsed JSON response, or a raised
`requests.RequestException` (network failure, `raise_for_status`). -/
inductive NetResult (α : Type) where
  | ok (val : α)
  | exn
  deriving Repr, DecidableEq

/-- The fields of a createTask response the code reads:
`resp.get("taskId")` (absent or empty string is falsy). -/
structure CreateResp where
  taskId : Option String
  deriving Repr, DecidableEq

/-- The fields of a getTaskResult response the code reads:
`resp.get("status")`, the truthiness of `resp.get("errorId")`, and
`resp.get("solution", \x7b\x7d).get("token")`. -/
structure PollResp where
  status : Option String
  errorId : Bool
  solutionToken : Option String
  deriving Repr, DecidableEq

/-- A solver double: the response to the single createTask submission and
the sequence of responses to successive getTaskResult polls. -/
structure Solver where
  createResp : NetResult CreateResp
  pollResps : List (NetResult PollResp)

/-- A poll response on which the `while True` loop keeps going: status is
neither "ready" nor "failed" and no truthy errorId. -/
def pollContinues (p : PollResp) : Bool :=
  p.status != some "ready" && p.status != some "failed" && !p.errorId

/-- The poll loop of get_capsolver_token: each iteration sleeps 2 seconds,
POSTs getTaskResult, and inspects the response; "ready" returns
`solution.token`, "failed" or a truthy errorId returns None, a
RequestException is caught by the surrounding try and returns None.
Returns `none` when the supplied responses are exhausted while the loop
would continue (the model of nontermination), together with the trace. -/
def pollLoop (taskId : String) : List (NetResult PollResp) →
    Option (Option String) × List Event
  | [] => (none, [])
  | r :: rest =>
    let step : List Event := [.sleep 2, .getTaskResult taskId]
    match r with
    | .exn => (some none, step)
    | .ok p =>
      if p.status == some "ready" then (some p.solutionToken, step)
      else if p.status == some "failed" || p.errorId then (some none, step)
      else
        let next := pollLoop taskId rest
        (next.1, step ++ next.2)

/-- Embedding of `get_capsolver_token(site_url)`: check CAPSOLVER_API_KEY
(falsy means print an error and return None with no network call), submit
the createTask request (a RequestException is caught and yields None),
require a truthy taskId, then run the poll loop. The result is the Python
return value (`none` at the outer layer models the loop never returning),
paired with the event trace. -/
def get_capsolver_token (apiKey : Option String) (solver : Solver)
    (site_url : String) : Option (Option String) × List Event :=
  if !strTruthy apiKey then (some none, [])
  else
    match solver.createResp with
    | .exn => (some none, [.createTask site_url])
    | .ok c =>
      if !strTruthy c.taskId then (some none, [.createTask site_url])
      else
        let next := pollLoop (c.taskId.getD "") solver.pollResps
        (next.1, .createTask site_url :: next.2)

/-- Embedding of `get_token_for_url(site_url)`: call get_capsolver_token
and raise `Exception(f"Failed to get verification token for URL: ...")`
when the result is falsy (None or empty string). -/
def get_token_for_url (apiKey : Option String) (solver : Solver)
    (site_url : String) : Option (Except String String) × List Event :=
  let r := get_capsolver_token apiKey solver site_url
  match r.1 with
  | none => (none, r.2)
  | some tok =>
    if !strTruthy tok then
      (some (.error ("Failed to get verification token for URL: " ++ site_url)), r.2)
    else (some (.ok (tok.getD "")), r.2)

/-- The dictionary returned by get_backlinks_list:
`{"overview": overview_data, "backlinks": backlinks}`. -/
structure BacklinksResult (α β : Type) where
  overview : α
  backlinks : β

/-- The `(signature, valid_until, overview_data)` triple returned by the
external collaborator `get_signature_and_overview(token, domain)`; the
code checks the truthiness of signature and valid_until. -/
structure SigOverview (α : Type) where
  signature : Option String
  valid_until : Option String
  overview : α

/-- Embedding of the `get_backlinks_list(domain)` tool. The collaborators
`get_signature_and_overview` and `get_backlinks` live in the external
seo_mcp.backlinks module and are passed as doubles. The tool builds the
backlink-checker URL by raw f-string interpolation of `domain`, obtains a
token for it, calls get_signature_and_overview, raises
`Exception(f"Failed to get signature for domain: ...")` when signature or
valid_until is falsy, otherwise calls get_backlinks and returns the
overview/backlinks dictionary. -/
def get_backlinks_list {α β : Type} (apiKey : Option String) (solver : Solver)
    (get_signature_and_overview : String → String → SigOverview α)
    (get_backlinks : String → String → String → β)
    (domain : String) :
    Option (Except String (BacklinksResult α β)) × List Event :=
  let url := "https://ahrefs.com/backlink-checker/?input=" ++ domain ++ "&mode=subdomains"
  let t := get_token_for_url apiKey solver url
  match t.1 with
  | none => (none, t.2)
  | some (.error e) => (some (.error e), t.2)
  | some (.ok token) =>
    let so := get_signature_and_overview token domain
    let evs := t.2 ++ [.upstream "get_signature_and_overview" token]
    if !strTruthy so.signature || !strTruthy so.valid_until then
      (some (.error ("Failed to get signature for domain: " ++ domain)), evs)
    else
      let backlinks := get_backlinks (so.signature.getD "") (so.valid_until.getD "") domain
      (some (.ok ⟨so.overview, backlinks⟩), evs ++ [.upstream "get_backlinks" token])

/-- Embedding of the `keyword_generator(keyword, country="us",
search_engine="Google")` tool: the keyword is percent-encoded with
urllib.parse.quote inside the keyword-generator URL, a token is obtained
for that URL, and the external collaborator `get_keyword_ideas(token,
keyword, country, search_engine)` produces the result. -/
def keyword_generator {γ : Type} (apiKey : Option String) (solver : Solver)
    (get_keyword_ideas : String → String → String → String → γ)
    (keyword country search_engine : String) :
    Option (Except String γ) × List Event :=
  let url := "https://ahrefs.com/keyword-generator/?country=" ++ country
      ++ "&input=" ++ quote keyword
  let t := get_token_for_url apiKey solver url
  match t.1 with
  | none => (none, t.2)
  | some (.error e) => (some (.error e), t.2)
  | some (.ok token) =>
    (some (.ok (get_keyword_ideas token keyword country search_engine)),
     t.2 ++ [.upstream "get_keyword_ideas" token])

/-- The `mode` argument of get_traffic, a `Literal["subdomains", "exact"]`
string in the source. -/
inductive TrafficMode where
  | subdomains
  | exact
  deriving Repr, DecidableEq

/-- The string value of a TrafficMode (what the f-string interpolates). -/
def TrafficMode.str : TrafficMode → String
  | .subdomains => "subdomains"
  | .exact => "exact"

/-- Embedding of the `get_traffic(domain_or_url, country="None",
mode="subdomains")` tool: the traffic-checker URL interpolates
`domain_or_url` and `mode` raw (no percent-encoding), a token is obtained
for it, and the external collaborator `check_traffic(token, domain_or_url,
mode, country)` produces the result. -/
def get_traffic {γ : Type} (apiKey : Option String) (solver : Solver)
    (check_traffic : String → String → String → String → γ)
    (domain_or_url country : String) (mode : TrafficMode) :
    Option (Except String γ) × List Event :=
  let url := "https://ahrefs.com/traffic-checker/?input=" ++ domain_or_url
      ++ "&mode=" ++ mode.str
  let t := get_token_for_url apiKey solver url
  match t.1 with
  | none => (none, t.2)
  | some (.error e) => (some (.error e), t.2)
  | some (.ok token) =>
    (some (.ok (check_traffic token domain_or_url mode.str country)),
     t.2 ++ [.upstream "check_traffic" token])

/-- Embedding of the `keyword_difficulty(keyword, country="us")` tool: the
keyword is percent-encoded with urllib.parse.quote inside the
keyword-difficulty URL, a token is obtained for that URL, and the external
collaborator `get_keyword_difficulty(token, keyword, country)` produces
the result. -/
def keyword_difficulty {γ : Type} (apiKey : Option String) (solver : Solver)
    (get_keyword_difficulty : String → String → String → γ)
    (keyword country : String) :
    Option (Except String γ) × List Event :=
  let url := "https://ahrefs.com/keyword-difficulty/?country=" ++ country
      ++ "&input=" ++ quote keyword
  let t := get_token_for_url apiKey solver url
  match t.1 with
  | none => (none, t.2)
  | some (.error e) => (some (.error e), t.2)
  | some (.ok token) =>
    (some (.ok (get_keyword_difficulty token keyword country)),
     t.2 ++ [.upstream "get_keyword_difficulty" token])

/-! ## Helper lemmas -/

theorem pollLoop_trace_no_upstream (tid : String) (l : List (NetResult PollResp)) :
    ∀ e ∈ (pollLoop tid l).2, e.isUpstream = false := by
  induction l with
  | nil => intro e he; simp [pollLoop] at he
  | cons r rest ih =>
    intro e he
    cases r with
    | exn =>
      simp [pollLoop] at he
      rcases he with h | h <;> simp [h, Event.isUpstream]
    | ok p =>
      by_cases h1 : p.status == some "ready"
      · simp [pollLoop, h1] at he
        rcases he with h | h <;> simp [h, Event.isUpstream]
      · by_cases h2 : p.status == some "failed" || p.errorId
        · simp [pollLoop, h1, h2] at he
          rcases he with h | h <;> simp [h, Event.isUpstream]
        · simp [pollLoop, h1, h2] at he
          rcases he with h | h | h
          · simp [h, Event.isUpstream]
          · simp [h, Event.isUpstream]
          · exact ih e h

theorem get_capsolver_token_trace_no_upstream (apiKey : Option String)
    (solver : Solver) (u : String) :
    ∀ e ∈ (get_capsolver_token apiKey solver u).2, e.isUpstream = false := by
  intro e he
  unfold get_capsolver_token at he
  by_cases hk : strTruthy apiKey
  · simp [hk] at he
    cases hc : solver.createResp with
    | exn =>
      simp [hc] at he
      simp [he, Event.isUpstream]
    | ok c =>
      simp [hc] at he
      by_cases ht : strTruthy c.taskId
      · simp [ht] at he
        rcases he with h | h
        · simp [h, Event.isUpstream]
        · exact pollLoop_trace_no_upstream _ _ e h
      · simp [ht] at he
        simp [he, Event.isUpstream]
  · simp [hk] at he

theorem get_token_for_url_trace (apiKey : Option String) (solver : Solver)
    (u : String) :
    (get_token_for_url apiKey solver u).2 = (get_capsolver_token apiKey solver u).2 := by
  simp only [get_token_for_url]
  rcases h : (get_capsolver_token apiKey solver u).1 with _ | tok
  · simp [h]
  · by_cases ht : strTruthy tok <;> simp [h, ht]

theorem get_token_for_url_fail (apiKey : Option String) (solver : Solver)
    (u : String) (h : (get_capsolver_token apiKey solver u).1 = some none) :
    (get_token_for_url apiKey solver u).1 =
      some (.error ("Failed to get verification token for URL: " ++ u)) := by
  simp only [get_token_for_url]
  rw [h]
  rfl

/-! ## Claim theorems -/

/-- C3: if the solver returns status "pending" and then status "ready"
carrying a token, get_capsolver_token returns exactly that token string
after exactly two getTaskResult polls, each preceded by a sleep of 2
seconds (one poll per response in the sequence). -/
theorem c3_pending_then_ready_returns_token (apiKey : Option String)
    (tid t site_url : String) (p1 p2 : PollResp)
    (hkey : strTruthy apiKey = true) (htid : tid ≠ "")
    (h1 : p1.status = some "pending") (h1e : p1.errorId = false)
    (h2 : p2.status = some "ready") (h2t : p2.solutionToken = some t) :
    get_capsolver_token apiKey ⟨.ok ⟨some tid⟩, [.ok p1, .ok p2]⟩ site_url =
      (some (some t),
       [.createTask site_url, .sleep 2, .getTaskResult tid,
        .sleep 2, .getTaskResult tid]) := by
  have htid2 : strTruthy (some tid) = true := by
    simpa [strTruthy] using htid
  simp [get_capsolver_token, pollLoop, hkey, htid2, h1, h1e, h2, h2t]

/-- Witness for C3 at concrete inputs. -/
theorem c3_witness :
    strTruthy (some "key") = true ∧ ("task1" : String) ≠ "" ∧
    get_capsolver_token (some "key")
        ⟨.ok ⟨some "task1"⟩,
         [.ok ⟨some "pending", false, none⟩,
          .ok ⟨some "ready", false, some "tok99"⟩]⟩ "https://x" =
      (some (some "tok99"),
       [.createTask "https://x", .sleep 2, .getTaskResult "task1",
        .sleep 2, .getTaskResult "task1"]) :=
  ⟨by decide, by decide,
   c3_pending_then_ready_returns_token (some "key") "task1" "tok99" "https://x"
     ⟨some "pending", false, none⟩ ⟨some "ready", false, some "tok99"⟩
     (by decide) (by decide) rfl rfl rfl rfl⟩

theorem pollLoop_skip (tid : String) (pre rest : List (NetResult PollResp))
    (h : ∀ x ∈ pre, ∃ q, x = .ok q ∧ pollContinues q = true) :
    (pollLoop tid (pre ++ rest)).1 = (pollLoop tid rest).1 := by
  induction pre with
  | nil => rfl
  | cons x xs ih =>
    obtain ⟨q, hx, hq⟩ := h x (List.mem_cons_self _ _)
    subst hx
    rw [pollContinues, Bool.and_eq_true, Bool.and_eq_true] at hq
    obtain ⟨⟨h1, h2⟩, h3⟩ := hq
    have h1f : (q.status == some "ready") = false := by
      simpa [bne] using h1
    have h2f : (q.status == some "failed") = false := by
      simpa [bne] using h2
    have h3f : q.errorId = false := by
      simpa using h3
    simp only [List.cons_append, pollLoop, h1f, h2f, h3f, Bool.false_eq_true,
      if_false, Bool.or_self]
    exact ih (fun x hx => h x (List.mem_cons_of_mem _ hx))

theorem pollLoop_some_token (tid t : String) (l : List (NetResult PollResp))
    (h : (pollLoop tid l).1 = some (some t)) :
    ∃ pre p rest, l = pre ++ .ok p :: rest ∧
      p.status = some "ready" ∧ p.solutionToken = some t := by
  induction l with
  | nil => simp [pollLoop] at h
  | cons r rest ih =>
    cases r with
    | exn => simp [pollLoop] at h
    | ok p =>
      by_cases h1 : p.status == some "ready"
      · refine ⟨[], p, rest, rfl, by simpa using h1, ?_⟩
        simpa [pollLoop, h1] using h
      · by_cases h2 : p.status == some "failed" || p.errorId
        · simp [pollLoop, h1, h2] at h
        · simp only [pollLoop, h1, h2, Bool.false_eq_true, if_false] at h
          obtain ⟨pre, p2, rest2, heq, hs, ht⟩ := ih h
          exact ⟨.ok p :: pre, p2, rest2, by rw [heq]; rfl, hs, ht⟩

theorem get_capsolver_token_some_token (apiKey : Option String) (solver : Solver)
    (u t : String) (h : (get_capsolver_token apiKey solver u).1 = some (some t)) :
    ∃ pre p rest, solver.pollResps = pre ++ .ok p :: rest ∧
      p.status = some "ready" ∧ p.solutionToken = some t := by
  unfold get_capsolver_token at h
  by_cases hk : strTruthy apiKey
  · simp only [hk, Bool.not_true, Bool.false_eq_true, if_false] at h
    cases hc : solver.createResp with
    | exn => rw [hc] at h; simp at h
    | ok c =>
      rw [hc] at h
      by_cases ht : strTruthy c.taskId
      · simp only [ht, Bool.not_true, Bool.false_eq_true, if_false] at h
        exact pollLoop_some_token _ _ _ h
      · simp [ht] at h
  · simp [hk] at h

/-- C4: on every failure path of the token broker — the createTask
response carries no (truthy) taskId, or a poll (reached after any number
of continuing responses) has status "failed", or bears a truthy errorId
while not being "ready" — get_capsolver_token returns None (the explicit
failure signal, not a token); and it returns a token string only when some
poll response had status "ready" carrying exactly that token. -/
theorem c4_failure_signal_and_token_only_on_success :
    (∀ (apiKey : Option String) (solver : Solver) (u : String) (c : CreateResp),
       solver.createResp = .ok c → strTruthy c.taskId = false →
       (get_capsolver_token apiKey solver u).1 = some none) ∧
    (∀ (apiKey : Option String) (tid u : String)
       (pre rest : List (NetResult PollResp)) (p : PollResp),
       (∀ x ∈ pre, ∃ q, x = .ok q ∧ pollContinues q = true) →
       (p.status == some "ready") = false →
       (p.status = some "failed" ∨ p.errorId = true) →
       (get_capsolver_token apiKey ⟨.ok ⟨some tid⟩, pre ++ .ok p :: rest⟩ u).1 =
         some none) ∧
    (∀ (apiKey : Option String) (solver : Solver) (u t : String),
       (get_capsolver_token apiKey solver u).1 = some (some t) →
       ∃ pre p rest, solver.pollResps = pre ++ .ok p :: rest ∧
         p.status = some "ready" ∧ p.solutionToken = some t) := by
  refine ⟨?_, ?_, ?_⟩
  · intro apiKey solver u c hc ht
    unfold get_capsolver_token
    by_cases hk : strTruthy apiKey
    · simp [hk, hc, ht]
    · simp [hk]
  · intro apiKey tid u pre rest p hpre hready hfail
    unfold get_capsolver_token
    by_cases hk : strTruthy apiKey
    · by_cases htid : strTruthy (some tid)
      · have hskip := pollLoop_skip tid pre (.ok p :: rest) hpre
        have hp : (pollLoop tid (NetResult.ok p :: rest)).1 =
            some none := by
          have hf : (p.status == some "failed" || p.errorId) = true := by
            rcases hfail with h | h <;> simp [h]
          simp [pollLoop, hready, hf]
        simp [hk, htid, hskip, hp]
      · simp [hk, htid]
    · simp [hk]
  · exact get_capsolver_token_some_token

/-- Witness for C4 at concrete inputs: an empty-string taskId, a first
poll with status "failed", and a run whose only poll is "ready" with a
token. -/
theorem c4_witness :
    ((get_capsolver_token (some "k") ⟨.ok ⟨some ""⟩, []⟩ "u").1 = some none) ∧
    ((get_capsolver_token (some "k")
        ⟨.ok ⟨some "T"⟩, [] ++ .ok ⟨some "failed", false, none⟩ :: []⟩ "u").1 =
      some none) ∧
    (∃ pre p rest,
      (⟨.ok ⟨some "T"⟩, [.ok ⟨some "ready", false, some "tk"⟩]⟩ : Solver).pollResps =
        pre ++ .ok p :: rest ∧
      p.status = some "ready" ∧ p.solutionToken = some "tk") :=
  ⟨c4_failure_signal_and_token_only_on_success.1 (some "k") ⟨.ok ⟨some ""⟩, []⟩ "u"
      ⟨some ""⟩ rfl (by decide),
   c4_failure_signal_and_token_only_on_success.2.1 (some "k") "T" "u" []
      [] ⟨some "failed", false, none⟩ (by simp) (by decide) (Or.inl rfl),
   c4_failure_signal_and_token_only_on_success.2.2 (some "k")
      ⟨.ok ⟨some "T"⟩, [.ok ⟨some "ready", false, some "tk"⟩]⟩ "u" "tk" (by decide)⟩

/-- C5: a transport exception (requests.RequestException) raised during
the createTask submission, or during any poll iteration (reached after any
number of continuing responses), is caught inside get_capsolver_token and
converted into the broker failure signal None; the broker result type has
no escaping-exception outcome, so no raw transport exception propagates. -/
theorem c5_transport_errors_caught :
    (∀ (apiKey : Option String) (u : String)
       (polls : List (NetResult PollResp)),
       strTruthy apiKey = true →
       get_capsolver_token apiKey ⟨.exn, polls⟩ u =
         (some none, [.createTask u])) ∧
    (∀ (apiKey : Option String) (tid u : String)
       (pre rest : List (NetResult PollResp)),
       (∀ x ∈ pre, ∃ q, x = .ok q ∧ pollContinues q = true) →
       (get_capsolver_token apiKey ⟨.ok ⟨some tid⟩, pre ++ .exn :: rest⟩ u).1 =
         some none) := by
  constructor
  · intro apiKey u polls hk
    simp [get_capsolver_token, hk]
  · intro apiKey tid u pre rest hpre
    unfold get_capsolver_token
    by_cases hk : strTruthy apiKey
    · by_cases htid : strTruthy (some tid)
      · have hskip := pollLoop_skip tid pre (.exn :: rest) hpre
        have hp : (pollLoop tid (.exn :: rest)).1 = some none := by
          simp [pollLoop]
        simp [hk, htid, hskip, hp]
      · simp [hk, htid]
    · simp [hk]

/-- Witness for C5 at concrete inputs: a createTask exception run and a
run whose first poll raises an exception. -/
theorem c5_witness :
    (strTruthy (some "k") = true ∧
     get_capsolver_token (some "k") ⟨.exn, []⟩ "u" =
       (some none, [.createTask "u"])) ∧
    ((get_capsolver_token (some "k") ⟨.ok ⟨some "T"⟩, [] ++ .exn :: []⟩ "u").1 =
      some none) :=
  ⟨⟨by decide, c5_transport_errors_caught.1 (some "k") "u" [] (by decide)⟩,
   c5_transport_errors_caught.2 (some "k") "T" "u" [] [] (by simp)⟩

theorem get_backlinks_list_token_fail {α β : Type} (apiKey : Option String)
    (solver : Solver) (gso : String → String → SigOverview α)
    (gb : String → String → String → β) (domain : String)
    (h : (get_capsolver_token apiKey solver
        ("https://ahrefs.com/backlink-checker/?input=" ++ domain ++
          "&mode=subdomains")).1 = some none) :
    get_backlinks_list apiKey solver gso gb domain =
      (some (.error ("Failed to get verification token for URL: " ++
        ("https://ahrefs.com/backlink-checker/?input=" ++ domain ++
          "&mode=subdomains"))),
       (get_capsolver_token apiKey solver
        ("https://ahrefs.com/backlink-checker/?input=" ++ domain ++
          "&mode=subdomains")).2) := by
  have hf := get_token_for_url_fail apiKey solver _ h
  have htr := get_token_for_url_trace apiKey solver
    ("https://ahrefs.com/backlink-checker/?input=" ++ domain ++ "&mode=subdomains")
  simp only [get_backlinks_list, hf, htr]

theorem keyword_generator_token_fail {γ : Type} (apiKey : Option String)
    (solver : Solver) (gki : String → String → String → String → γ)
    (keyword country search_engine : String)
    (h : (get_capsolver_token apiKey solver
        ("https://ahrefs.com/keyword-generator/?country=" ++ country ++
          "&input=" ++ quote keyword)).1 = some none) :
    keyword_generator apiKey solver gki keyword country search_engine =
      (some (.error ("Failed to get verification token for URL: " ++
        ("https://ahrefs.com/keyword-generator/?country=" ++ country ++
          "&input=" ++ quote keyword))),
       (get_capsolver_token apiKey solver
        ("https://ahrefs.com/keyword-generator/?country=" ++ country ++
          "&input=" ++ quote keyword)).2) := by
  have hf := get_token_for_url_fail apiKey solver _ h
  have htr := get_token_for_url_trace apiKey solver
    ("https://ahrefs.com/keyword-generator/?country=" ++ country ++
      "&input=" ++ quote keyword)
  simp only [keyword_generator, hf, htr]

theorem get_traffic_token_fail {γ : Type} (apiKey : Option String)
    (solver : Solver) (ct : String → String → String → String → γ)
    (domain_or_url country : String) (mode : TrafficMode)
    (h : (get_capsolver_token apiKey solver
        ("https://ahrefs.com/traffic-checker/?input=" ++ domain_or_url ++
          "&mode=" ++ mode.str)).1 = some none) :
    get_traffic apiKey solver ct domain_or_url country mode =
      (some (.error ("Failed to get verification token for URL: " ++
        ("https://ahrefs.com/traffic-checker/?input=" ++ domain_or_url ++
          "&mode=" ++ mode.str))),
       (get_capsolver_token apiKey solver
        ("https://ahrefs.com/traffic-checker/?input=" ++ domain_or_url ++
          "&mode=" ++ mode.str)).2) := by
  have hf := get_token_for_url_fail apiKey solver _ h
  have htr := get_token_for_url_trace apiKey solver
    ("https://ahrefs.com/traffic-checker/?input=" ++ domain_or_url ++
      "&mode=" ++ mode.str)
  simp only [get_traffic, hf, htr]

theorem keyword_difficulty_token_fail {γ : Type} (apiKey : Option String)
    (solver : Solver) (gkd : String → String → String → γ)
    (keyword country : String)
    (h : (get_capsolver_token apiKey solver
        ("https://ahrefs.com/keyword-difficulty/?country=" ++ country ++
          "&input=" ++ quote keyword)).1 = some none) :
    keyword_difficulty apiKey solver gkd keyword country =
      (some (.error ("Failed to get verification token for URL: " ++
        ("https://ahrefs.com/keyword-difficulty/?country=" ++ country ++
          "&input=" ++ quote keyword))),
       (get_capsolver_token apiKey solver
        ("https://ahrefs.com/keyword-difficulty/?country=" ++ country ++
          "&input=" ++ quote keyword)).2) := by
  have hf := get_token_for_url_fail apiKey solver _ h
  have htr := get_token_for_url_trace apiKey solver
    ("https://ahrefs.com/keyword-difficulty/?country=" ++ country ++
      "&input=" ++ quote keyword)
  simp only [keyword_difficulty, hf, htr]

/-- C1: for each of the four tools, if the token broker signals failure
(returns None) for the target URL the tool constructs, the tool raises an
Exception whose message names that URL, and its trace contains no call to
any upstream query collaborator. -/
theorem c1_no_token_means_error_and_no_upstream {α β γ δ ε : Type}
    (apiKey : Option String) (solver : Solver)
    (gso : String → String → SigOverview α)
    (gb : String → String → String → β)
    (gki : String → String → String → String → γ)
    (ct : String → String → String → String → δ)
    (gkd : String → String → String → ε)
    (domain keyword country search_engine dom2 country2 kw3 country3 : String)
    (mode : TrafficMode) :
    ((get_capsolver_token apiKey solver
        ("https://ahrefs.com/backlink-checker/?input=" ++ domain ++
          "&mode=subdomains")).1 = some none →
      (get_backlinks_list apiKey solver gso gb domain).1 =
        some (.error ("Failed to get verification token for URL: " ++
          ("https://ahrefs.com/backlink-checker/?input=" ++ domain ++
            "&mode=subdomains"))) ∧
      ∀ e ∈ (get_backlinks_list apiKey solver gso gb domain).2,
        e.isUpstream = false) ∧
    ((get_capsolver_token apiKey solver
        ("https://ahrefs.com/keyword-generator/?country=" ++ country ++
          "&input=" ++ quote keyword)).1 = some none →
      (keyword_generator apiKey solver gki keyword country search_engine).1 =
        some (.error ("Failed to get verification token for URL: " ++
          ("https://ahrefs.com/keyword-generator/?country=" ++ country ++
            "&input=" ++ quote keyword))) ∧
      ∀ e ∈ (keyword_generator apiKey solver gki keyword country search_engine).2,
        e.isUpstream = false) ∧
    ((get_capsolver_token apiKey solver
        ("https://ahrefs.com/traffic-checker/?input=" ++ dom2 ++
          "&mode=" ++ mode.str)).1 = some none →
      (get_traffic apiKey solver ct dom2 country2 mode).1 =
        some (.error ("Failed to get verification token for URL: " ++
          ("https://ahrefs.com/traffic-checker/?input=" ++ dom2 ++
            "&mode=" ++ mode.str))) ∧
      ∀ e ∈ (get_traffic apiKey solver ct dom2 country2 mode).2,
        e.isUpstream = false) ∧
    ((get_capsolver_token apiKey solver
        ("https://ahrefs.com/keyword-difficulty/?country=" ++ country3 ++
          "&input=" ++ quote kw3)).1 = some none →
      (keyword_difficulty apiKey solver gkd kw3 country3).1 =
        some (.error ("Failed to get verification token for URL: " ++
          ("https://ahrefs.com/keyword-difficulty/?country=" ++ country3 ++
            "&input=" ++ quote kw3))) ∧
      ∀ e ∈ (keyword_difficulty apiKey solver gkd kw3 country3).2,
        e.isUpstream = false) := by
  refine ⟨fun h => ?_, fun h => ?_, fun h => ?_, fun h => ?_⟩
  · rw [get_backlinks_list_token_fail apiKey solver gso gb domain h]
    exact ⟨rfl, fun e he => get_capsolver_token_trace_no_upstream _ _ _ e he⟩
  · rw [keyword_generator_token_fail apiKey solver gki keyword country
      search_engine h]
    exact ⟨rfl, fun e he => get_capsolver_token_trace_no_upstream _ _ _ e he⟩
  · rw [get_traffic_token_fail apiKey solver ct dom2 country2 mode h]
    exact ⟨rfl, fun e he => get_capsolver_token_trace_no_upstream _ _ _ e he⟩
  · rw [keyword_difficulty_token_fail apiKey solver gkd kw3 country3 h]
    exact ⟨rfl, fun e he => get_capsolver_token_trace_no_upstream _ _ _ e he⟩

/-- Witness for C1 at concrete inputs (a missing API key makes the broker
return None for every URL). -/
theorem c1_witness :
    (get_capsolver_token none ⟨.ok ⟨some "T"⟩, []⟩
        ("https://ahrefs.com/backlink-checker/?input=" ++ "d" ++
          "&mode=subdomains")).1 = some none ∧
    (get_backlinks_list none ⟨.ok ⟨some "T"⟩, []⟩
        (fun _ _ => (⟨none, none, 0⟩ : SigOverview Nat))
        (fun _ _ _ => (0 : Nat)) "d").1 =
      some (.error ("Failed to get verification token for URL: " ++
        ("https://ahrefs.com/backlink-checker/?input=" ++ "d" ++
          "&mode=subdomains"))) ∧
    (keyword_generator none ⟨.ok ⟨some "T"⟩, []⟩
        (fun _ _ _ _ => (0 : Nat)) "kw" "us" "Google").1 =
      some (.error ("Failed to get verification token for URL: " ++
        ("https://ahrefs.com/keyword-generator/?country=" ++ "us" ++
          "&input=" ++ quote "kw"))) ∧
    (get_traffic none ⟨.ok ⟨some "T"⟩, []⟩
        (fun _ _ _ _ => (0 : Nat)) "t.io" "None" .subdomains).1 =
      some (.error ("Failed to get verification token for URL: " ++
        ("https://ahrefs.com/traffic-checker/?input=" ++ "t.io" ++
          "&mode=" ++ TrafficMode.str .subdomains))) ∧
    (keyword_difficulty none ⟨.ok ⟨some "T"⟩, []⟩
        (fun _ _ _ => (0 : Nat)) "kw" "us").1 =
      some (.error ("Failed to get verification token for URL: " ++
        ("https://ahrefs.com/keyword-difficulty/?country=" ++ "us" ++
          "&input=" ++ quote "kw"))) := by
  have h := c1_no_token_means_error_and_no_upstream (α := Nat) (β := Nat)
    (γ := Nat) (δ := Nat) (ε := Nat) none ⟨.ok ⟨some "T"⟩, []⟩
    (fun _ _ => ⟨none, none, 0⟩) (fun _ _ _ => 0) (fun _ _ _ _ => 0)
    (fun _ _ _ _ => 0) (fun _ _ _ => 0)
    "d" "kw" "us" "Google" "t.io" "None" "kw" "us" .subdomains
  exact ⟨rfl, (h.1 rfl).1, (h.2.1 rfl).1, (h.2.2.1 rfl).1, (h.2.2.2 rfl).1⟩

/-- C2: for each of the four tools, if the CAPSOLVER_API_KEY environment
variable is absent (falsy), the call fails with an error and the event
trace is empty: get_capsolver_token returns None before any HTTP request,
so no outbound network call and no upstream call is made. -/
theorem c2_missing_credential_fails_without_network {α β γ δ ε : Type}
    (apiKey : Option String) (solver : Solver)
    (gso : String → String → SigOverview α)
    (gb : String → String → String → β)
    (gki : String → String → String → String → γ)
    (ct : String → String → String → String → δ)
    (gkd : String → String → String → ε)
    (domain keyword country search_engine dom2 country2 kw3 country3 : String)
    (mode : TrafficMode) (hk : strTruthy apiKey = false) :
    get_backlinks_list apiKey solver gso gb domain =
      (some (.error ("Failed to get verification token for URL: " ++
        ("https://ahrefs.com/backlink-checker/?input=" ++ domain ++
          "&mode=subdomains"))), []) ∧
    keyword_generator apiKey solver gki keyword country search_engine =
      (some (.error ("Failed to get verification token for URL: " ++
        ("https://ahrefs.com/keyword-generator/?country=" ++ country ++
          "&input=" ++ quote keyword))), []) ∧
    get_traffic apiKey solver ct dom2 country2 mode =
      (some (.error ("Failed to get verification token for URL: " ++
        ("https://ahrefs.com/traffic-checker/?input=" ++ dom2 ++
          "&mode=" ++ mode.str))), []) ∧
    keyword_difficulty apiKey solver gkd kw3 country3 =
      (some (.error ("Failed to get verification token for URL: " ++
        ("https://ahrefs.com/keyword-difficulty/?country=" ++ country3 ++
          "&input=" ++ quote kw3))), []) := by
  have hb : ∀ u, get_capsolver_token apiKey solver u = (some none, []) := by
    intro u
    simp [get_capsolver_token, hk]
  refine ⟨?_, ?_, ?_, ?_⟩
  · rw [get_backlinks_list_token_fail apiKey solver gso gb domain (by rw [hb]),
      hb]
  · rw [keyword_generator_token_fail apiKey solver gki keyword country
      search_engine (by rw [hb]), hb]
  · rw [get_traffic_token_fail apiKey solver ct dom2 country2 mode (by rw [hb]),
      hb]
  · rw [keyword_difficulty_token_fail apiKey solver gkd kw3 country3
      (by rw [hb]), hb]

/-- Witness for C2 at concrete inputs. -/
theorem c2_witness :
    strTruthy none = false ∧
    get_backlinks_list none ⟨.ok ⟨some "T"⟩, []⟩
        (fun _ _ => (⟨none, none, 0⟩ : SigOverview Nat))
        (fun _ _ _ => (0 : Nat)) "d" =
      (some (.error ("Failed to get verification token for URL: " ++
        ("https://ahrefs.com/backlink-checker/?input=" ++ "d" ++
          "&mode=subdomains"))), []) ∧
    keyword_difficulty none ⟨.ok ⟨some "T"⟩, []⟩
        (fun _ _ _ => (0 : Nat)) "kw" "us" =
      (some (.error ("Failed to get verification token for URL: " ++
        ("https://ahrefs.com/keyword-difficulty/?country=" ++ "us" ++
          "&input=" ++ quote "kw"))), []) := by
  have h := c2_missing_credential_fails_without_network (α := Nat) (β := Nat)
    (γ := Nat) (δ := Nat) (ε := Nat) none ⟨.ok ⟨some "T"⟩, []⟩
    (fun _ _ => ⟨none, none, 0⟩) (fun _ _ _ => 0) (fun _ _ _ _ => 0)
    (fun _ _ _ _ => 0) (fun _ _ _ => 0)
    "d" "kw" "us" "Google" "t.io" "None" "kw" "us" .subdomains rfl
  exact ⟨rfl, h.1, h.2.2.2⟩

theorem get_token_for_url_ok (apiKey : Option String) (solver : Solver)
    (u t : String) (ht : t ≠ "")
    (h : (get_capsolver_token apiKey solver u).1 = some (some t)) :
    (get_token_for_url apiKey solver u).1 = some (.ok t) := by
  simp only [get_token_for_url]
  rw [h]
  simp [strTruthy, ht]

/-- C7: when token acquisition succeeds with a truthy token and the
signature/overview collaborator returns a truthy signature and validity
plus an overview, get_backlinks_list returns exactly the dictionary with
that overview and the backlink list returned by the get_backlinks
collaborator (both passed through unchanged). -/
theorem c7_backlinks_happy_path {α β : Type} (apiKey : Option String)
    (solver : Solver) (gso : String → String → SigOverview α)
    (gb : String → String → String → β) (domain t sig vu : String) (ov : α)
    (ht : t ≠ "")
    (h : (get_capsolver_token apiKey solver
        ("https://ahrefs.com/backlink-checker/?input=" ++ domain ++
          "&mode=subdomains")).1 = some (some t))
    (hso : gso t domain = ⟨some sig, some vu, ov⟩)
    (hsig : sig ≠ "") (hvu : vu ≠ "") :
    (get_backlinks_list apiKey solver gso gb domain).1 =
      some (.ok ⟨ov, gb sig vu domain⟩) := by
  have hok := get_token_for_url_ok apiKey solver _ t ht h
  simp only [get_backlinks_list]
  rw [hok]
  simp [hso, strTruthy, hsig, hvu]

/-- Witness for C7 at concrete inputs. -/
theorem c7_witness :
    ("tok" : String) ≠ "" ∧
    (get_backlinks_list (some "k")
        ⟨.ok ⟨some "T"⟩, [.ok ⟨some "ready", false, some "tok"⟩]⟩
        (fun _ _ => (⟨some "sig", some "vu", 42⟩ : SigOverview Nat))
        (fun _ _ _ => "BL") "d").1 =
      some (.ok ⟨42, "BL"⟩) :=
  ⟨by decide,
   c7_backlinks_happy_path (some "k")
     ⟨.ok ⟨some "T"⟩, [.ok ⟨some "ready", false, some "tok"⟩]⟩
     (fun _ _ => ⟨some "sig", some "vu", 42⟩) (fun _ _ _ => "BL")
     "d" "tok" "sig" "vu" 42 (by decide) (by decide) rfl (by decide) (by decide)⟩

/-- C8: when token acquisition succeeds but the signature/overview
collaborator returns no signature (None), get_backlinks_list raises an
Exception whose message names the domain, rather than returning any
success value. -/
theorem c8_no_signature_is_error {α β : Type} (apiKey : Option String)
    (solver : Solver) (gso : String → String → SigOverview α)
    (gb : String → String → String → β) (domain t : String)
    (vuOpt : Option String) (ov : α) (ht : t ≠ "")
    (h : (get_capsolver_token apiKey solver
        ("https://ahrefs.com/backlink-checker/?input=" ++ domain ++
          "&mode=subdomains")).1 = some (some t))
    (hso : gso t domain = ⟨none, vuOpt, ov⟩) :
    (get_backlinks_list apiKey solver gso gb domain).1 =
      some (.error ("Failed to get signature for domain: " ++ domain)) := by
  have hok := get_token_for_url_ok apiKey solver _ t ht h
  simp only [get_backlinks_list]
  rw [hok]
  simp [hso, strTruthy]

/-- Witness for C8 at concrete inputs. -/
theorem c8_witness :
    ("tok" : String) ≠ "" ∧
    (get_backlinks_list (some "k")
        ⟨.ok ⟨some "T"⟩, [.ok ⟨some "ready", false, some "tok"⟩]⟩
        (fun _ _ => (⟨none, some "vu", 42⟩ : SigOverview Nat))
        (fun _ _ _ => "BL") "d").1 =
      some (.error ("Failed to get signature for domain: " ++ "d")) :=
  ⟨by decide,
   c8_no_signature_is_error (some "k")
     ⟨.ok ⟨some "T"⟩, [.ok ⟨some "ready", false, some "tok"⟩]⟩
     (fun _ _ => ⟨none, some "vu", 42⟩) (fun _ _ _ => "BL")
     "d" "tok" (some "vu") 42 (by decide) (by decide) rfl⟩

/-- Two sequential invocations of the same request-scoped computation:
the first call is evaluated, then the second; there is no state threaded
between them because the tool layer holds none. -/
def callTwice {σ : Type} (f : Unit → σ) : σ × σ := (f (), f ())

/-- C9: keyword_difficulty is deterministic: with identical arguments,
the same environment, the same solver double and the same deterministic
upstream double, two sequential calls return identical result/trace pairs;
the embedding is a pure function of these inputs because the tool layer
keeps no mutable state. -/
theorem c9_keyword_difficulty_deterministic {γ : Type}
    (apiKey : Option String) (solver : Solver)
    (gkd : String → String → String → γ) (keyword country : String) :
    (callTwice fun _ => keyword_difficulty apiKey solver gkd keyword country).1 =
      (callTwice fun _ => keyword_difficulty apiKey solver gkd keyword country).2 :=
  rfl

set_option maxRecDepth 4000 in
theorem quoteByte_no_reserved :
    ∀ b : Nat, b < 256 → ∀ c ∈ quoteByte b, c ≠ ' ' ∧ c ≠ '&' := by decide

theorem utf8Bytes_lt_256 (ch : Char) : ∀ b ∈ utf8Bytes ch, b < 256 := by
  intro b hb
  have hc : ch.toNat < 1114112 := by
    have hv := ch.valid
    rcases hv with h | ⟨_, h⟩
    · have : ch.toNat < 55296 := h
      omega
    · exact h
  simp only [utf8Bytes] at hb
  split at hb
  · simp at hb; omega
  · split at hb
    · simp at hb
      rcases hb with h | h <;> omega
    · split at hb
      · simp at hb
        rcases hb with h | h | h <;> omega
      · simp at hb
        rcases hb with h | h | h | h <;> omega

theorem quote_no_reserved (s : String) :
    ∀ c ∈ (quote s).data, c ≠ ' ' ∧ c ≠ '&' := by
  intro c hc
  have hc2 : c ∈ (s.data.flatMap utf8Bytes).flatMap quoteByte := hc
  rw [List.mem_flatMap] at hc2
  obtain ⟨b, hb, hcb⟩ := hc2
  rw [List.mem_flatMap] at hb
  obtain ⟨ch, _, hbch⟩ := hb
  exact quoteByte_no_reserved b (utf8Bytes_lt_256 ch b hbch) c hcb

theorem get_capsolver_token_trace_head (apiKey : Option String)
    (solver : Solver) (u : String) (hk : strTruthy apiKey = true) :
    (get_capsolver_token apiKey solver u).2.head? = some (.createTask u) := by
  unfold get_capsolver_token
  cases hc : solver.createResp with
  | exn => simp [hk, hc]
  | ok c => by_cases ht : strTruthy c.taskId <;> simp [hk, hc, ht]

theorem trace_head_append {l l2 : List Event} {e : Event}
    (h : l.head? = some e) : (l ++ l2).head? = some e := by
  cases l with
  | nil => simp at h
  | cons x xs => simpa using h

theorem keyword_generator_trace_head {γ : Type} (apiKey : Option String)
    (solver : Solver) (gki : String → String → String → String → γ)
    (keyword country search_engine : String) (hk : strTruthy apiKey = true) :
    (keyword_generator apiKey solver gki keyword country search_engine).2.head? =
      some (.createTask ("https://ahrefs.com/keyword-generator/?country=" ++
        country ++ "&input=" ++ quote keyword)) := by
  have hb := get_capsolver_token_trace_head apiKey solver
    ("https://ahrefs.com/keyword-generator/?country=" ++ country ++
      "&input=" ++ quote keyword) hk
  have htr := get_token_for_url_trace apiKey solver
    ("https://ahrefs.com/keyword-generator/?country=" ++ country ++
      "&input=" ++ quote keyword)
  simp only [keyword_generator]
  rcases h1 : (get_token_for_url apiKey solver
      ("https://ahrefs.com/keyword-generator/?country=" ++ country ++
        "&input=" ++ quote keyword)).1 with _ | t
  · simpa [h1, htr] using hb
  · cases t with
    | error e => simpa [h1, htr] using hb
    | ok tok =>
      simp only [h1]
      exact trace_head_append (htr ▸ hb)

theorem keyword_difficulty_trace_head {γ : Type} (apiKey : Option String)
    (solver : Solver) (gkd : String → String → String → γ)
    (keyword country : String) (hk : strTruthy apiKey = true) :
    (keyword_difficulty apiKey solver gkd keyword country).2.head? =
      some (.createTask ("https://ahrefs.com/keyword-difficulty/?country=" ++
        country ++ "&input=" ++ quote keyword)) := by
  have hb := get_capsolver_token_trace_head apiKey solver
    ("https://ahrefs.com/keyword-difficulty/?country=" ++ country ++
      "&input=" ++ quote keyword) hk
  have htr := get_token_for_url_trace apiKey solver
    ("https://ahrefs.com/keyword-difficulty/?country=" ++ country ++
      "&input=" ++ quote keyword)
  simp only [keyword_difficulty]
  rcases h1 : (get_token_for_url apiKey solver
      ("https://ahrefs.com/keyword-difficulty/?country=" ++ country ++
        "&input=" ++ quote keyword)).1 with _ | t
  · simpa [h1, htr] using hb
  · cases t with
    | error e => simpa [h1, htr] using hb
    | ok tok =>
      simp only [h1]
      exact trace_head_append (htr ▸ hb)

theorem get_backlinks_list_trace_head {α β : Type} (apiKey : Option String)
    (solver : Solver) (gso : String → String → SigOverview α)
    (gb : String → String → String → β) (domain : String)
    (hk : strTruthy apiKey = true) :
    (get_backlinks_list apiKey solver gso gb domain).2.head? =
      some (.createTask ("https://ahrefs.com/backlink-checker/?input=" ++
        domain ++ "&mode=subdomains")) := by
  have hb := get_capsolver_token_trace_head apiKey solver
    ("https://ahrefs.com/backlink-checker/?input=" ++ domain ++
      "&mode=subdomains") hk
  have htr := get_token_for_url_trace apiKey solver
    ("https://ahrefs.com/backlink-checker/?input=" ++ domain ++
      "&mode=subdomains")
  simp only [get_backlinks_list]
  rcases h1 : (get_token_for_url apiKey solver
      ("https://ahrefs.com/backlink-checker/?input=" ++ domain ++
        "&mode=subdomains")).1 with _ | t
  · simpa [h1, htr] using hb
  · cases t with
    | error e => simpa [h1, htr] using hb
    | ok tok =>
      simp only [h1]
      split
      · exact trace_head_append (htr ▸ hb)
      · exact trace_head_append (trace_head_append (htr ▸ hb))

theorem get_traffic_trace_head {γ : Type} (apiKey : Option String)
    (solver : Solver) (ct : String → String → String → String → γ)
    (domain_or_url country : String) (mode : TrafficMode)
    (hk : strTruthy apiKey = true) :
    (get_traffic apiKey solver ct domain_or_url country mode).2.head? =
      some (.createTask ("https://ahrefs.com/traffic-checker/?input=" ++
        domain_or_url ++ "&mode=" ++ mode.str)) := by
  have hb := get_capsolver_token_trace_head apiKey solver
    ("https://ahrefs.com/traffic-checker/?input=" ++ domain_or_url ++
      "&mode=" ++ mode.str) hk
  have htr := get_token_for_url_trace apiKey solver
    ("https://ahrefs.com/traffic-checker/?input=" ++ domain_or_url ++
      "&mode=" ++ mode.str)
  simp only [get_traffic]
  rcases h1 : (get_token_for_url apiKey solver
      ("https://ahrefs.com/traffic-checker/?input=" ++ domain_or_url ++
        "&mode=" ++ mode.str)).1 with _ | t
  · simpa [h1, htr] using hb
  · cases t with
    | error e => simpa [h1, htr] using hb
    | ok tok =>
      simp only [h1]
      exact trace_head_append (htr ▸ hb)

/-- C6: for every keyword and country, the target URL that
keyword_generator (and keyword_difficulty) passes to the token broker —
the websiteURL of the first createTask event of the trace — embeds the
keyword percent-encoded with urllib.parse.quote, and the quoted keyword
never contains a raw space or ampersand (reserved characters are
percent-encoded). -/
theorem c6_keyword_percent_encoded {γ ε : Type} (apiKey : Option String)
    (solver : Solver) (gki : String → String → String → String → γ)
    (gkd : String → String → String → ε)
    (keyword country search_engine kw2 country2 : String)
    (hk : strTruthy apiKey = true) :
    (keyword_generator apiKey solver gki keyword country search_engine).2.head? =
      some (.createTask ("https://ahrefs.com/keyword-generator/?country=" ++
        country ++ "&input=" ++ quote keyword)) ∧
    (keyword_difficulty apiKey solver gkd kw2 country2).2.head? =
      some (.createTask ("https://ahrefs.com/keyword-difficulty/?country=" ++
        country2 ++ "&input=" ++ quote kw2)) ∧
    (∀ c ∈ (quote keyword).data, c ≠ ' ' ∧ c ≠ '&') ∧
    (∀ c ∈ (quote kw2).data, c ≠ ' ' ∧ c ≠ '&') :=
  ⟨keyword_generator_trace_head apiKey solver gki keyword country search_engine hk,
   keyword_difficulty_trace_head apiKey solver gkd kw2 country2 hk,
   quote_no_reserved keyword, quote_no_reserved kw2⟩

/-- Witness for C6 at concrete inputs: the keyword "a b&c" is sent as
"a%20b%26c" inside the createTask websiteURL. -/
theorem c6_witness :
    strTruthy (some "k") = true ∧
    quote "a b&c" = "a%20b%26c" ∧
    (keyword_generator (some "k") ⟨.ok ⟨some "T"⟩, []⟩
        (fun _ _ _ _ => (0 : Nat)) "a b&c" "us" "Google").2.head? =
      some (.createTask ("https://ahrefs.com/keyword-generator/?country=" ++
        "us" ++ "&input=" ++ quote "a b&c")) ∧
    (∀ c ∈ (quote "a b&c").data, c ≠ ' ' ∧ c ≠ '&') :=
  ⟨by decide, by decide,
   (c6_keyword_percent_encoded (γ := Nat) (ε := Nat) (some "k")
     ⟨.ok ⟨some "T"⟩, []⟩ (fun _ _ _ _ => 0) (fun _ _ _ => 0)
     "a b&c" "us" "Google" "kw" "us" (by decide)).1,
   (c6_keyword_percent_encoded (γ := Nat) (ε := Nat) (some "k")
     ⟨.ok ⟨some "T"⟩, []⟩ (fun _ _ _ _ => 0) (fun _ _ _ => 0)
     "a b&c" "us" "Google" "kw" "us" (by decide)).2.2.1⟩

/-- C10: get_backlinks_list and get_traffic interpolate their domain and
domain_or_url arguments into the target URL raw, with no percent-encoding:
the createTask websiteURL is the literal concatenation of the URL prefix,
the argument and the suffix, so for the input "a b&c" the raw space and
ampersand appear unencoded in the URL sent to the token broker. -/
theorem c10_raw_domain_interpolation {α β δ : Type} (apiKey : Option String)
    (solver : Solver) (gso : String → String → SigOverview α)
    (gb : String → String → String → β)
    (ct : String → String → String → String → δ)
    (domain dom2 country2 : String) (mode : TrafficMode)
    (hk : strTruthy apiKey = true) :
    (get_backlinks_list apiKey solver gso gb domain).2.head? =
      some (.createTask ("https://ahrefs.com/backlink-checker/?input=" ++
        domain ++ "&mode=subdomains")) ∧
    (get_traffic apiKey solver ct dom2 country2 mode).2.head? =
      some (.createTask ("https://ahrefs.com/traffic-checker/?input=" ++
        dom2 ++ "&mode=" ++ mode.str)) ∧
    (' ' ∈ ("https://ahrefs.com/backlink-checker/?input=" ++ "a b&c" ++
        "&mode=subdomains").data ∧
      '&' ∈ ("https://ahrefs.com/backlink-checker/?input=" ++ "a b&c" ++
        "&mode=subdomains").data) ∧
    ' ' ∈ ("https://ahrefs.com/traffic-checker/?input=" ++ "a b&c" ++
        "&mode=" ++ TrafficMode.str .subdomains).data :=
  ⟨get_backlinks_list_trace_head apiKey solver gso gb domain hk,
   get_traffic_trace_head apiKey solver ct dom2 country2 mode hk,
   ⟨by decide, by decide⟩, by decide⟩

/-- Witness for C10 at concrete inputs: the domain "a b&c" reaches the
createTask websiteURL verbatim, raw space included. -/
theorem c10_witness :
    strTruthy (some "k") = true ∧
    (get_backlinks_list (some "k") ⟨.ok ⟨some "T"⟩, []⟩
        (fun _ _ => (⟨none, none, 0⟩ : SigOverview Nat))
        (fun _ _ _ => (0 : Nat)) "a b&c").2.head? =
      some (.createTask ("https://ahrefs.com/backlink-checker/?input=" ++
        "a b&c" ++ "&mode=subdomains")) ∧
    ' ' ∈ ("https://ahrefs.com/backlink-checker/?input=" ++ "a b&c" ++
        "&mode=subdomains").data :=
  ⟨by decide,
   (c10_raw_domain_interpolation (α := Nat) (β := Nat) (δ := Nat) (some "k")
     ⟨.ok ⟨some "T"⟩, []⟩ (fun _ _ => ⟨none, none, 0⟩) (fun _ _ _ => 0)
     (fun _ _ _ _ => 0) "a b&c" "t.io" "None" .subdomains (by decide)).1,
   (c10_raw_domain_interpolation (α := Nat) (β := Nat) (δ := Nat) (some "k")
     ⟨.ok ⟨some "T"⟩, []⟩ (fun _ _ => ⟨none, none, 0⟩) (fun _ _ _ => 0)
     (fun _ _ _ _ => 0) "a b&c" "t.io" "None" .subdomains (by decide)).2.2.1.1⟩
